import Mathlib

/-!
Shallow embedding of the mock QDMI device backend
(`src/crates/arvak-qdmi/examples/mock_device/mock_device.c`), the fixture
that implements the 18-entry-point device protocol described by the design
document: the two-phase property-query codec (`write_property`), the
reference-counted device lifecycle, the session lifecycle and parameter
storage, and the job interface.

Modelling conventions:
* C `int` status codes are `Int` with the exact numeric values of the
  `QDMI_*` macros.
* Byte buffers are `List Nat` (one entry per byte); `memcpy(dst, src, n)`
  becomes `memcpyBytes dst src n`, which replaces the first `n` bytes of
  the destination.  Machine words (`size_t`, `uintptr_t`, `uint64_t`) are
  serialised little-endian via `leBytes`.
* A nullable pointer argument is modelled by a `Bool` null flag (for
  buffers whose contents are never read) or an `Option` (for structs).
* An out-parameter slot such as `size_ret` is modelled in the result as
  `Option Nat`: `some n` means the callee stored `n` into the slot,
  `none` means the slot was null or never written.
* IEEE-754 `double` payloads (fidelities, the duration scale factor) are
  not interpreted; only their byte length (8 = `sizeof(double)`) is
  meaningful to any statement below, so their bytes are an uninterpreted
  all-zero placeholder.
-/

namespace MockQDMI

/-- QDMI v1.2.1 status code `QDMI_SUCCESS` (0). -/
def QDMI_SUCCESS : Int := 0

/-- Status code `QDMI_WARN_GENERAL` (1). -/
def QDMI_WARN_GENERAL : Int := 1

/-- Status code `QDMI_ERROR_FATAL` (-1). -/
def QDMI_ERROR_FATAL : Int := -1

/-- Status code `QDMI_ERROR_OUTOFMEM` (-2). -/
def QDMI_ERROR_OUTOFMEM : Int := -2

/-- Status code `QDMI_ERROR_INVALIDARGUMENT` (-7). -/
def QDMI_ERROR_INVALIDARGUMENT : Int := -7

/-- Status code `QDMI_ERROR_NOTSUPPORTED` (-9). -/
def QDMI_ERROR_NOTSUPPORTED : Int := -9

/-- Status code `QDMI_ERROR_BADSTATE` (-10). -/
def QDMI_ERROR_BADSTATE : Int := -10

/-- Status code `QDMI_ERROR_TIMEOUT` (-11). -/
def QDMI_ERROR_TIMEOUT : Int := -11

/-- Device property key `QDMI_DEVICE_PROPERTY_NAME`. -/
def QDMI_DEVICE_PROPERTY_NAME : Int := 0

/-- Device property key `QDMI_DEVICE_PROPERTY_VERSION`. -/
def QDMI_DEVICE_PROPERTY_VERSION : Int := 1

/-- Device property key `QDMI_DEVICE_PROPERTY_STATUS`. -/
def QDMI_DEVICE_PROPERTY_STATUS : Int := 2

/-- Device property key `QDMI_DEVICE_PROPERTY_QUBITSNUM`. -/
def QDMI_DEVICE_PROPERTY_QUBITSNUM : Int := 4

/-- Device property key `QDMI_DEVICE_PROPERTY_SITES`. -/
def QDMI_DEVICE_PROPERTY_SITES : Int := 5

/-- Device property key `QDMI_DEVICE_PROPERTY_OPERATIONS`. -/
def QDMI_DEVICE_PROPERTY_OPERATIONS : Int := 6

/-- Device property key `QDMI_DEVICE_PROPERTY_COUPLINGMAP`. -/
def QDMI_DEVICE_PROPERTY_COUPLINGMAP : Int := 7

/-- Device property key `QDMI_DEVICE_PROPERTY_DURATIONSCALEFACTOR`. -/
def QDMI_DEVICE_PROPERTY_DURATIONSCALEFACTOR : Int := 13

/-- Device property key `QDMI_DEVICE_PROPERTY_SUPPORTEDPROGRAMFORMATS`. -/
def QDMI_DEVICE_PROPERTY_SUPPORTEDPROGRAMFORMATS : Int := 15

/-- Site property key `QDMI_SITE_PROPERTY_INDEX`. -/
def QDMI_SITE_PROPERTY_INDEX : Int := 0

/-- Site property key `QDMI_SITE_PROPERTY_T1`. -/
def QDMI_SITE_PROPERTY_T1 : Int := 1

/-- Site property key `QDMI_SITE_PROPERTY_T2`. -/
def QDMI_SITE_PROPERTY_T2 : Int := 2

/-- Operation property key `QDMI_OPERATION_PROPERTY_NAME`. -/
def QDMI_OPERATION_PROPERTY_NAME : Int := 0

/-- Operation property key `QDMI_OPERATION_PROPERTY_QUBITSNUM`. -/
def QDMI_OPERATION_PROPERTY_QUBITSNUM : Int := 1

/-- Operation property key `QDMI_OPERATION_PROPERTY_PARAMETERSNUM`. -/
def QDMI_OPERATION_PROPERTY_PARAMETERSNUM : Int := 2

/-- Operation property key `QDMI_OPERATION_PROPERTY_DURATION`. -/
def QDMI_OPERATION_PROPERTY_DURATION : Int := 3

/-- Operation property key `QDMI_OPERATION_PROPERTY_FIDELITY`. -/
def QDMI_OPERATION_PROPERTY_FIDELITY : Int := 4

/-- Device status `QDMI_DEVICE_STATUS_IDLE`. -/
def QDMI_DEVICE_STATUS_IDLE : Int := 1

/-- Job status `QDMI_JOB_STATUS_CREATED`. -/
def QDMI_JOB_STATUS_CREATED : Int := 0

/-- Job status `QDMI_JOB_STATUS_SUBMITTED`. -/
def QDMI_JOB_STATUS_SUBMITTED : Int := 1

/-- Job status `QDMI_JOB_STATUS_DONE`. -/
def QDMI_JOB_STATUS_DONE : Int := 4

/-- Session parameter key `QDMI_DEVICE_SESSION_PARAMETER_BASEURL`. -/
def QDMI_DEVICE_SESSION_PARAMETER_BASEURL : Int := 0

/-- Session parameter key `QDMI_DEVICE_SESSION_PARAMETER_TOKEN`. -/
def QDMI_DEVICE_SESSION_PARAMETER_TOKEN : Int := 1

/-- Job result kind `QDMI_JOB_RESULT_HISTKEYS`. -/
def QDMI_JOB_RESULT_HISTKEYS : Int := 1

/-- Job result kind `QDMI_JOB_RESULT_HISTVALUES`. -/
def QDMI_JOB_RESULT_HISTVALUES : Int := 2

/-- Number of qubits of the mock backend (`NUM_QUBITS`). -/
def NUM_QUBITS : Nat := 5

/-- The little-endian byte serialisation of a machine word: `leBytes n w`
is the `n` low-order bytes of `w`, least significant first (`n = 8` for
`size_t` / `uintptr_t` / `uint64_t`, `n = 4` for `int32_t`). -/
def leBytes : Nat → Nat → List Nat
  | 0, _ => []
  | n + 1, w => (w % 256) :: leBytes n (w / 256)

/-- Serialise a list of 8-byte machine words into a flat byte list, in
order, each word little-endian (the memory image of a `uintptr_t[]` or
`size_t[]` array on a little-endian 64-bit target). -/
def encodeWords : List Nat → List Nat
  | [] => []
  | w :: ws => leBytes 8 w ++ encodeWords ws

/-- Serialise a list of 4-byte `int32_t` values into a flat byte list. -/
def encodeWords32 : List Nat → List Nat
  | [] => []
  | w :: ws => leBytes 4 w ++ encodeWords32 ws

/-- Read one 8-byte little-endian word back from a byte list. -/
def wordOfLE : List Nat → Nat
  | [] => 0
  | b :: bs => b + 256 * wordOfLE bs

/-- Decode a flat byte list into its sequence of 8-byte machine words
(little-endian), the inverse view used by callers of the coupling-map and
site-list properties.  Trailing bytes that do not fill a word are ignored. -/
def decodeWords : List Nat → List Nat
  | b0 :: b1 :: b2 :: b3 :: b4 :: b5 :: b6 :: b7 :: rest =>
      wordOfLE [b0, b1, b2, b3, b4, b5, b6, b7] :: decodeWords rest
  | _ => []

/-- Group a flat list into consecutive pairs, the caller-side view of a
coupling map reported as a flat sequence of token pairs. -/
def pairUp : List Nat → List (Nat × Nat)
  | a :: b :: rest => (a, b) :: pairUp rest
  | _ => []

/-- The bytes of a C string literal including its NUL terminator
(all literals in the mock are ASCII). -/
def strzBytes (s : String) : List Nat :=
  s.toList.map Char.toNat ++ [0]

/-- Model of `memcpy(dst, src, n)` on byte lists: the first `n` bytes of
the destination are replaced by the first `n` bytes of the source.  (In C
the source always has at least `n` readable bytes; call sites below pass
`n` equal to the source length.) -/
def memcpyBytes (dst src : List Nat) (n : Nat) : List Nat :=
  src.take n ++ dst.drop n

/-- The outcome of one call through the two-phase property codec: the
returned status, the contents of the caller's value buffer after the call,
and the value stored into the `size_ret` out-slot (`none` when the slot
was null or the call returned before reaching the codec). -/
structure WritePropOut where
  status : Int
  buf : List Nat
  sizeRet : Option Nat
deriving DecidableEq, Repr

/-- Embedding of the shared codec `write_property(src, src_size, size,
value, size_ret)` of `mock_device.c`: report `src_size` through a non-null
`size_ret` first; a zero requested `size` or a null `value` pointer is a
phase-1 probe (success, no buffer write); a non-null buffer with
`size < src_size` is rejected with `QDMI_ERROR_INVALIDARGUMENT` and no
buffer write; otherwise `src_size` bytes are copied and the call
succeeds.  `valueNull` is the null flag of the `value` pointer,
`sizeRetNull` that of `size_ret`, and `buf` the buffer's prior contents. -/
def write_property (src : List Nat) (src_size : Nat) (size : Nat)
    (valueNull : Bool) (buf : List Nat) (sizeRetNull : Bool) : WritePropOut :=
  let sr : Option Nat := if sizeRetNull then none else some src_size
  if size = 0 ∨ valueNull = true then
    { status := QDMI_SUCCESS, buf := buf, sizeRet := sr }
  else if size < src_size then
    { status := QDMI_ERROR_INVALIDARGUMENT, buf := buf, sizeRet := sr }
  else
    { status := QDMI_SUCCESS, buf := memcpyBytes buf src src_size, sizeRet := sr }

/-- The five site sentinel tokens of the mock backend (`SITES`). -/
def SITES : List Nat := [0x1000, 0x1001, 0x1002, 0x1003, 0x1004]

/-- The coupling map of the mock backend (`COUPLING_MAP`): a flat sequence
of site-token pairs, each pair one directed edge of the linear topology
0-1, 1-2, 2-3, 3-4 in both directions (8 directed edges). -/
def COUPLING_MAP : List Nat :=
  [0x1000, 0x1001, 0x1001, 0x1000,
   0x1001, 0x1002, 0x1002, 0x1001,
   0x1002, 0x1003, 0x1003, 0x1002,
   0x1003, 0x1004, 0x1004, 0x1003]

/-- Number of directed coupling pairs (`NUM_COUPLING_PAIRS`). -/
def NUM_COUPLING_PAIRS : Nat := 8

/-- The three operation sentinel tokens (`OPERATIONS`): H, CX, RZ. -/
def OPERATIONS : List Nat := [0x2000, 0x2001, 0x2002]

/-- Operation names (`OP_NAMES`) as NUL-terminated byte strings. -/
def OP_NAMES : List (List Nat) := [strzBytes "h", strzBytes "cx", strzBytes "rz"]

/-- Operation qubit counts (`OP_QUBITS`). -/
def OP_QUBITS : List Nat := [1, 2, 1]

/-- Operation parameter counts (`OP_PARAMS`). -/
def OP_PARAMS : List Nat := [0, 0, 1]

/-- Operation durations in nanoseconds (`OP_DURATIONS`, `uint64_t`). -/
def OP_DURATIONS : List Nat := [30, 300, 20]

/-- Per-qubit T1 times in nanoseconds (`SITE_T1`, `uint64_t`). -/
def SITE_T1 : List Nat := [100000, 95000, 110000, 90000, 105000]

/-- Per-qubit T2 times in nanoseconds (`SITE_T2`, `uint64_t`). -/
def SITE_T2 : List Nat := [50000, 48000, 55000, 45000, 52000]

/-- Supported program formats (`SUPPORTED_FORMATS`): QASM2 (0), QASM3 (1),
stored as two `int32_t` values. -/
def SUPPORTED_FORMATS : List Nat := [0, 1]

/-- Placeholder for the 8 IEEE-754 bytes of a `double` payload
(`OP_FIDELITIES[i]`, `DURATION_SCALE_FACTOR`).  Floating-point bit
patterns are not modelled; every statement below depends at most on the
length of this list, which is `sizeof(double) = 8` as in the source. -/
def doubleBytesOpaque : List Nat := List.replicate 8 0

/-- Result of `site_index` / `op_index`: the position of a sentinel token
in the backing array, or `none` for the C functions' `-1` sentinel. -/
def tokenIndex (table : List Nat) (tok : Nat) : Option Nat :=
  table.findIdx? (fun x => x == tok)

/-- The session struct `MockSession`: `int active` flag and the two
256-byte parameter arrays `char token[256]`, `char baseurl[256]`
(zero-filled by `calloc` at allocation). -/
structure MockSession where
  active : Bool
  token : List Nat
  baseurl : List Nat
deriving DecidableEq, Repr

/-- The job struct `MockJob`: status, program format, owned program copy
(`none` for the null pointer), and shot count. -/
structure MockJob where
  status : Int
  program_format : Int
  program : Option (List Nat)
  shots : Nat
deriving DecidableEq, Repr

/-- Embedding of `MOCK_QDMI_device_initialize`: unconditionally increments
the device reference count `device_init_refcount` and returns success.
The result is the status paired with the new reference count. -/
def MOCK_QDMI_device_initialize_impl (rc : Int) : Int × Int :=
  (QDMI_SUCCESS, rc + 1)

/-- Embedding of `MOCK_QDMI_device_finalize`: decrements the device
reference count only when it is positive (clamped at zero) and returns
success.  The result is the status paired with the new reference count. -/
def MOCK_QDMI_device_finalize (rc : Int) : Int × Int :=
  (QDMI_SUCCESS, if rc > 0 then rc - 1 else rc)

/-- One call on the device lifecycle: `init` for
`MOCK_QDMI_device_initialize`, `fin` for `MOCK_QDMI_device_finalize`. -/
inductive DeviceLifecycleOp where
  | init
  | fin
deriving DecidableEq, Repr

/-- Run a sequence of device lifecycle calls against a starting reference
count, returning the final reference count. -/
def runDeviceOps : List DeviceLifecycleOp → Int → Int
  | [], rc => rc
  | DeviceLifecycleOp.init :: ops, rc =>
      runDeviceOps ops (MOCK_QDMI_device_initialize_impl rc).2
  | DeviceLifecycleOp.fin :: ops, rc =>
      runDeviceOps ops (MOCK_QDMI_device_finalize rc).2

/-- Embedding of `MOCK_QDMI_device_session_alloc`: a null out-pointer is
`QDMI_ERROR_INVALIDARGUMENT`; a non-positive device reference count is
`QDMI_ERROR_BADSTATE`; otherwise a zero-filled session is returned
(`calloc`: inactive, both parameter arrays all zero). -/
def MOCK_QDMI_device_session_alloc (rc : Int) (sessionOutNull : Bool) :
    Int × Option MockSession :=
  if sessionOutNull = true then (QDMI_ERROR_INVALIDARGUMENT, none)
  else if rc ≤ 0 then (QDMI_ERROR_BADSTATE, none)
  else (QDMI_SUCCESS,
        some { active := false,
               token := List.replicate 256 0,
               baseurl := List.replicate 256 0 })

/-- Result of a session-mutating call: the status and the session state
after the call. -/
structure SessionCallOut where
  status : Int
  session : MockSession
deriving DecidableEq, Repr

/-- Embedding of `MOCK_QDMI_device_session_set_parameter` on a non-null
session.  For the TOKEN and BASEURL keys: only when the value pointer is
non-null, the size is positive and the size is strictly below the 256-byte
array does the call `memcpy` the value into the array and NUL-terminate it
at index `size`; in every case it returns success.  Any other key is
`QDMI_ERROR_NOTSUPPORTED`.  `valueNull` is the null flag of the value
pointer and `value` the bytes it points at. -/
def MOCK_QDMI_device_session_set_parameter (s : MockSession) (param : Int)
    (size : Nat) (valueNull : Bool) (value : List Nat) : SessionCallOut :=
  if param = QDMI_DEVICE_SESSION_PARAMETER_TOKEN then
    if valueNull = false ∧ 0 < size ∧ size < 256 then
      { status := QDMI_SUCCESS,
        session := { s with token := (memcpyBytes s.token value size).set size 0 } }
    else
      { status := QDMI_SUCCESS, session := s }
  else if param = QDMI_DEVICE_SESSION_PARAMETER_BASEURL then
    if valueNull = false ∧ 0 < size ∧ size < 256 then
      { status := QDMI_SUCCESS,
        session := { s with baseurl := (memcpyBytes s.baseurl value size).set size 0 } }
    else
      { status := QDMI_SUCCESS, session := s }
  else
    { status := QDMI_ERROR_NOTSUPPORTED, session := s }

/-- Embedding of `MOCK_QDMI_device_session_init` on a non-null session:
unconditionally sets the active flag and returns success (the null-session
case returns `QDMI_ERROR_INVALIDARGUMENT` and is handled by the caller
model). -/
def MOCK_QDMI_device_session_init (s : MockSession) : SessionCallOut :=
  { status := QDMI_SUCCESS, session := { s with active := true } }

/-- Device name string bytes, `strlen(name) + 1` long. -/
def deviceNameBytes : List Nat := strzBytes "Arvak Mock Device (5Q Linear)"

/-- Device version string bytes. -/
def deviceVersionBytes : List Nat := strzBytes "0.1.0"

/-- Embedding of `MOCK_QDMI_device_session_query_device_property`.  A null
session is `QDMI_ERROR_INVALIDARGUMENT`; an inactive session is
`QDMI_ERROR_BADSTATE`; otherwise the property key is dispatched to
`write_property` with the property's bytes and true size, and an unknown
key is `QDMI_ERROR_NOTSUPPORTED`.  On the paths that return before the
codec, neither the buffer nor the `size_ret` slot is touched. -/
def MOCK_QDMI_device_session_query_device_property (s : Option MockSession)
    (prop : Int) (size : Nat) (valueNull : Bool) (buf : List Nat)
    (sizeRetNull : Bool) : WritePropOut :=
  match s with
  | none => { status := QDMI_ERROR_INVALIDARGUMENT, buf := buf, sizeRet := none }
  | some s =>
    if s.active = false then
      { status := QDMI_ERROR_BADSTATE, buf := buf, sizeRet := none }
    else if prop = QDMI_DEVICE_PROPERTY_NAME then
      write_property deviceNameBytes deviceNameBytes.length size valueNull buf sizeRetNull
    else if prop = QDMI_DEVICE_PROPERTY_VERSION then
      write_property deviceVersionBytes deviceVersionBytes.length size valueNull buf sizeRetNull
    else if prop = QDMI_DEVICE_PROPERTY_STATUS then
      write_property (leBytes 4 1) 4 size valueNull buf sizeRetNull
    else if prop = QDMI_DEVICE_PROPERTY_QUBITSNUM then
      write_property (leBytes 8 NUM_QUBITS) 8 size valueNull buf sizeRetNull
    else if prop = QDMI_DEVICE_PROPERTY_SITES then
      write_property (encodeWords SITES) (8 * 5) size valueNull buf sizeRetNull
    else if prop = QDMI_DEVICE_PROPERTY_COUPLINGMAP then
      write_property (encodeWords COUPLING_MAP) (8 * NUM_COUPLING_PAIRS * 2) size valueNull buf sizeRetNull
    else if prop = QDMI_DEVICE_PROPERTY_OPERATIONS then
      write_property (encodeWords OPERATIONS) (8 * 3) size valueNull buf sizeRetNull
    else if prop = QDMI_DEVICE_PROPERTY_DURATIONSCALEFACTOR then
      write_property doubleBytesOpaque 8 size valueNull buf sizeRetNull
    else if prop = QDMI_DEVICE_PROPERTY_SUPPORTEDPROGRAMFORMATS then
      write_property (encodeWords32 SUPPORTED_FORMATS) 8 size valueNull buf sizeRetNull
    else
      { status := QDMI_ERROR_NOTSUPPORTED, buf := buf, sizeRet := none }

/-- Embedding of `MOCK_QDMI_device_session_query_site_property`.  A null
session or an unknown site token is `QDMI_ERROR_INVALIDARGUMENT`;
otherwise the key dispatches to `write_property`.  Note: the C function
performs no check of the session's active flag. -/
def MOCK_QDMI_device_session_query_site_property (s : Option MockSession)
    (site : Nat) (prop : Int) (size : Nat) (valueNull : Bool)
    (buf : List Nat) (sizeRetNull : Bool) : WritePropOut :=
  match s with
  | none => { status := QDMI_ERROR_INVALIDARGUMENT, buf := buf, sizeRet := none }
  | some _ =>
    match tokenIndex SITES site with
    | none => { status := QDMI_ERROR_INVALIDARGUMENT, buf := buf, sizeRet := none }
    | some idx =>
      if prop = QDMI_SITE_PROPERTY_INDEX then
        write_property (leBytes 8 idx) 8 size valueNull buf sizeRetNull
      else if prop = QDMI_SITE_PROPERTY_T1 then
        write_property (leBytes 8 (SITE_T1.getD idx 0)) 8 size valueNull buf sizeRetNull
      else if prop = QDMI_SITE_PROPERTY_T2 then
        write_property (leBytes 8 (SITE_T2.getD idx 0)) 8 size valueNull buf sizeRetNull
      else
        { status := QDMI_ERROR_NOTSUPPORTED, buf := buf, sizeRet := none }

/-- Embedding of `MOCK_QDMI_device_session_query_operation_property`.  The
`num_sites` / `sites` / `num_params` / `params` arguments are accepted and
ignored exactly as in the C source.  A null session or an unknown
operation token is `QDMI_ERROR_INVALIDARGUMENT`; otherwise the key
dispatches to `write_property`.  Note: the C function performs no check of
the session's active flag. -/
def MOCK_QDMI_device_session_query_operation_property (s : Option MockSession)
    (operation : Nat) (_num_sites : Nat) (_sites : List Nat)
    (_num_params : Nat) (prop : Int) (size : Nat) (valueNull : Bool)
    (buf : List Nat) (sizeRetNull : Bool) : WritePropOut :=
  match s with
  | none => { status := QDMI_ERROR_INVALIDARGUMENT, buf := buf, sizeRet := none }
  | some _ =>
    match tokenIndex OPERATIONS operation with
    | none => { status := QDMI_ERROR_INVALIDARGUMENT, buf := buf, sizeRet := none }
    | some idx =>
      if prop = QDMI_OPERATION_PROPERTY_NAME then
        write_property (OP_NAMES.getD idx []) (OP_NAMES.getD idx []).length size valueNull buf sizeRetNull
      else if prop = QDMI_OPERATION_PROPERTY_QUBITSNUM then
        write_property (leBytes 8 (OP_QUBITS.getD idx 0)) 8 size valueNull buf sizeRetNull
      else if prop = QDMI_OPERATION_PROPERTY_PARAMETERSNUM then
        write_property (leBytes 8 (OP_PARAMS.getD idx 0)) 8 size valueNull buf sizeRetNull
      else if prop = QDMI_OPERATION_PROPERTY_DURATION then
        write_property (leBytes 8 (OP_DURATIONS.getD idx 0)) 8 size valueNull buf sizeRetNull
      else if prop = QDMI_OPERATION_PROPERTY_FIDELITY then
        write_property doubleBytesOpaque 8 size valueNull buf sizeRetNull
      else
        { status := QDMI_ERROR_NOTSUPPORTED, buf := buf, sizeRet := none }

/-- Embedding of `MOCK_QDMI_device_session_create_device_job`: a null
session or null out-pointer is `QDMI_ERROR_INVALIDARGUMENT`; otherwise a
fresh job in `QDMI_JOB_STATUS_CREATED` with 1024 shots and no program is
returned.  The `calloc`-failure path (`QDMI_ERROR_OUTOFMEM`) is not
modelled: allocation is assumed to succeed.  Note: the C function performs
no check of the session's active flag. -/
def MOCK_QDMI_device_session_create_device_job (s : Option MockSession)
    (jobOutNull : Bool) : Int × Option MockJob :=
  match s with
  | none => (QDMI_ERROR_INVALIDARGUMENT, none)
  | some _ =>
    if jobOutNull = true then (QDMI_ERROR_INVALIDARGUMENT, none)
    else (QDMI_SUCCESS,
          some { status := QDMI_JOB_STATUS_CREATED, program_format := 0,
                 program := none, shots := 1024 })

/-- The histogram-keys source bytes of `MOCK_QDMI_device_job_get_results`:
the C literal `"00000\011111\0"`, in which `\011` is the octal escape for
byte 9, so the literal holds the 11 bytes below (with its implicit NUL).
The C code nonetheless copies `keys_len = 12` bytes from it, reading one
byte past the literal; only the 11 defined bytes are modelled. -/
def histKeysBytes : List Nat := [48, 48, 48, 48, 48, 9, 49, 49, 49, 0, 0]

/-- The histogram-values source bytes: the `size_t counts[2] = {512, 512}`
array, 16 bytes. -/
def histValuesBytes : List Nat := encodeWords [512, 512]

/-- Embedding of `MOCK_QDMI_device_job_get_results`: a null job is
`QDMI_ERROR_INVALIDARGUMENT`; the HISTKEYS and HISTVALUES kinds dispatch
to `write_property` with their canned data (HISTKEYS with the source's
stated size 12); any other kind is `QDMI_ERROR_NOTSUPPORTED`.  Note: the C
function performs no check of the job's status. -/
def MOCK_QDMI_device_job_get_results (j : Option MockJob) (result_type : Int)
    (size : Nat) (valueNull : Bool) (buf : List Nat) (sizeRetNull : Bool) :
    WritePropOut :=
  match j with
  | none => { status := QDMI_ERROR_INVALIDARGUMENT, buf := buf, sizeRet := none }
  | some _ =>
    if result_type = QDMI_JOB_RESULT_HISTKEYS then
      write_property histKeysBytes 12 size valueNull buf sizeRetNull
    else if result_type = QDMI_JOB_RESULT_HISTVALUES then
      write_property histValuesBytes 16 size valueNull buf sizeRetNull
    else
      { status := QDMI_ERROR_NOTSUPPORTED, buf := buf, sizeRet := none }

/-- Embedding of `MOCK_QDMI_device_job_query_property` on a non-null job:
the ID key dispatches to `write_property` with the job-id string, any
other key is `QDMI_ERROR_NOTSUPPORTED`. -/
def MOCK_QDMI_device_job_query_property (prop : Int) (size : Nat)
    (valueNull : Bool) (buf : List Nat) (sizeRetNull : Bool) : WritePropOut :=
  if prop = 0 then
    write_property (strzBytes "mock-job-001") (strzBytes "mock-job-001").length size valueNull buf sizeRetNull
  else
    { status := QDMI_ERROR_NOTSUPPORTED, buf := buf, sizeRet := none }

/-- Edge list of the line graph over a list of site tokens, as directed
pairs in both directions, following the design document's description of
the 0-1-2-3-4 linear topology: consecutive tokens are joined forward and
backward, in order along the line. -/
def lineGraphDirectedEdges : List Nat → List (Nat × Nat)
  | a :: b :: rest => (a, b) :: (b, a) :: lineGraphDirectedEdges (b :: rest)
  | _ => []

/-! Helper lemmas. -/

/-- Setting index `i` of a list and reading it back yields the new value
when `i` is in bounds. -/
theorem getElem?_set_self_of_lt (l : List Nat) (i : Nat) (a : Nat)
    (h : i < l.length) : (l.set i a)[i]? = some a := by
  simp [List.getElem?_set, h]

/-- The length of the session parameter array after a bounded store:
`memcpy` of `size` bytes followed by the NUL write at index `size` keeps
the 256-byte array at length 256. -/
theorem store_param_length (arr value : List Nat) (size : Nat)
    (h : arr.length = 256) (hs : size < 256) (hv : size ≤ value.length) :
    ((memcpyBytes arr value size).set size 0).length = 256 := by
  simp only [List.length_set, memcpyBytes, List.length_append,
    List.length_take, List.length_drop, h]
  omega

/-- After a bounded store, the byte at index `size` is the NUL
terminator. -/
theorem store_param_nul (arr value : List Nat) (size : Nat)
    (h : arr.length = 256) (hs : size < 256) (hv : size ≤ value.length) :
    ((memcpyBytes arr value size).set size 0)[size]? = some 0 := by
  apply getElem?_set_self_of_lt
  simp only [memcpyBytes, List.length_append, List.length_take,
    List.length_drop, h]
  omega

/-! Claims about the shared two-phase codec `write_property`. -/

/-- C1 (counterexample): the claim states that every call with a non-null
buffer and a requested size smaller than the true size returns
`QDMI_ERROR_INVALIDARGUMENT`.  At requested size 0 — smaller than the
true size 1 — with a non-null buffer, `write_property` instead takes the
phase-1 branch and returns `QDMI_SUCCESS`. -/
theorem write_property_small_nonnull_counterexample :
    (write_property [171] 1 0 false [0] false).status = QDMI_SUCCESS
    ∧ QDMI_SUCCESS ≠ QDMI_ERROR_INVALIDARGUMENT
    ∧ (MOCK_QDMI_device_session_query_device_property
        (some { active := true, token := [], baseurl := [] })
        QDMI_DEVICE_PROPERTY_QUBITSNUM 0 false [0] false).status = QDMI_SUCCESS := by
  decide

/-- C1 (amended): a call through the codec with a non-null buffer and a
NONZERO requested size smaller than the true size returns
`QDMI_ERROR_INVALIDARGUMENT` and writes no bytes into the buffer (a zero
requested size is a phase-1 probe and succeeds without writing). -/
theorem write_property_small_fill_rejected (src : List Nat)
    (src_size size : Nat) (buf : List Nat) (sizeRetNull : Bool)
    (hsz : size ≠ 0) (hlt : size < src_size) :
    (write_property src src_size size false buf sizeRetNull).status
      = QDMI_ERROR_INVALIDARGUMENT
    ∧ (write_property src src_size size false buf sizeRetNull).buf = buf := by
  constructor <;> simp [write_property, hsz, hlt]

/-- C1 (witness): the amended statement at a concrete input. -/
theorem write_property_small_fill_rejected_witness :
    ((1 : Nat) ≠ 0 ∧ 1 < 2)
    ∧ (write_property [7, 8] 2 1 false [9] false).status = QDMI_ERROR_INVALIDARGUMENT
    ∧ (write_property [7, 8] 2 1 false [9] false).buf = [9] :=
  ⟨by decide,
   write_property_small_fill_rejected [7, 8] 2 1 [9] false (by decide) (by decide)⟩

/-- C2: a phase-1 size probe (zero requested size or null buffer pointer)
returns success, never writes into the value buffer, and stores the true
size — zero included — into a non-null actual-size slot. -/
theorem write_property_probe_reports_size (src : List Nat)
    (src_size size : Nat) (valueNull : Bool) (buf : List Nat)
    (sizeRetNull : Bool) (h : size = 0 ∨ valueNull = true) :
    (write_property src src_size size valueNull buf sizeRetNull).status = QDMI_SUCCESS
    ∧ (write_property src src_size size valueNull buf sizeRetNull).buf = buf
    ∧ (sizeRetNull = false →
        (write_property src src_size size valueNull buf sizeRetNull).sizeRet
          = some src_size) := by
  rcases h with h | h <;>
    refine ⟨by simp [write_property, h], by simp [write_property, h], ?_⟩ <;>
    intro hn <;> simp [write_property, h, hn]

/-- C2 (witness): a probe with zero-size buffer and null pointer on a
zero-length value succeeds and reports size zero. -/
theorem write_property_probe_reports_size_witness :
    ((0 : Nat) = 0 ∨ (true : Bool) = true)
    ∧ (write_property [] 0 0 true [] false).status = QDMI_SUCCESS
    ∧ (write_property [] 0 0 true [] false).buf = []
    ∧ ((false : Bool) = false →
        (write_property [] 0 0 true [] false).sizeRet = some 0) :=
  ⟨Or.inl rfl, write_property_probe_reports_size [] 0 0 true [] false (Or.inl rfl)⟩

/-- C3: a fill call with a non-null buffer whose requested size is at
least the true size succeeds and replaces exactly the first
`src.length` bytes of the buffer with the value — the same count that the
phase-1 probe reports for the same key and arguments. -/
theorem write_property_fill_matches_probe (src : List Nat) (size : Nat)
    (buf : List Nat) (sizeRetNull : Bool) (hle : src.length ≤ size) :
    (write_property src src.length size false buf sizeRetNull).status = QDMI_SUCCESS
    ∧ (write_property src src.length size false buf sizeRetNull).buf
      = src ++ buf.drop src.length
    ∧ (write_property src src.length 0 true buf false).sizeRet = some src.length := by
  by_cases hsz : size = 0
  · subst hsz
    have hnil : src = [] := List.eq_nil_of_length_eq_zero (Nat.le_zero.mp hle)
    subst hnil
    exact ⟨by simp [write_property], by simp [write_property], by simp [write_property]⟩
  · have hnl : ¬size < src.length := Nat.not_lt.mpr hle
    refine ⟨by simp [write_property, hsz, hnl], ?_, by simp [write_property]⟩
    simp [write_property, hsz, hnl, memcpyBytes]

/-- C3 (witness): the fill/probe agreement at a concrete input. -/
theorem write_property_fill_matches_probe_witness :
    ([7, 8] : List Nat).length ≤ 3
    ∧ (write_property [7, 8] 2 3 false [1, 2, 3, 4] false).status = QDMI_SUCCESS
    ∧ (write_property [7, 8] 2 3 false [1, 2, 3, 4] false).buf
      = [7, 8] ++ ([1, 2, 3, 4] : List Nat).drop 2
    ∧ (write_property [7, 8] 2 0 true [1, 2, 3, 4] false).sizeRet = some 2 :=
  ⟨by decide, write_property_fill_matches_probe [7, 8] 3 [1, 2, 3, 4] false (by decide)⟩

/-- C10: on every path through the codec — phase-1 probe, rejected
undersized fill, and successful fill alike — a non-null actual-size slot
receives the true size of the value before the size check. -/
theorem write_property_always_reports_size (src : List Nat)
    (src_size size : Nat) (valueNull : Bool) (buf : List Nat) :
    (write_property src src_size size valueNull buf false).sizeRet = some src_size := by
  unfold write_property
  split_ifs <;> simp_all

/-! Claims about the session state machine and the query entry points. -/

set_option maxRecDepth 4000 in
/-- C4 (counterexample): the claim states that every query operation on an
allocated, not-yet-initialised session returns `QDMI_ERROR_BADSTATE`.  A
freshly allocated session (active flag unset) queried for site T1 on a
valid site token instead returns `QDMI_SUCCESS`: the site-level query
never reads the active flag. -/
theorem site_query_before_init_counterexample :
    (MOCK_QDMI_device_session_alloc 1 false).2
      = some { active := false, token := List.replicate 256 0,
               baseurl := List.replicate 256 0 }
    ∧ (MOCK_QDMI_device_session_query_site_property
        (MOCK_QDMI_device_session_alloc 1 false).2
        0x1000 QDMI_SITE_PROPERTY_T1 0 true [] false).status = QDMI_SUCCESS
    ∧ (MOCK_QDMI_device_session_query_operation_property
        (MOCK_QDMI_device_session_alloc 1 false).2
        0x2000 0 [] 0 QDMI_OPERATION_PROPERTY_QUBITSNUM 0 true [] false).status
      = QDMI_SUCCESS
    ∧ QDMI_SUCCESS ≠ QDMI_ERROR_BADSTATE := by
  decide

/-- C4 (amended): only the device-level query checks the active flag —
on an inactive session it returns `QDMI_ERROR_BADSTATE` for every key —
while the site- and operation-level queries ignore the flag entirely:
their results on an inactive session coincide with those on the same
session with the flag set. -/
theorem query_before_init_behaviour (s : MockSession) (h : s.active = false)
    (prop sprop oprop : Int) (size : Nat) (valueNull : Bool)
    (buf : List Nat) (sizeRetNull : Bool) (site opTok : Nat)
    (ns : Nat) (sl : List Nat) (np : Nat) :
    (MOCK_QDMI_device_session_query_device_property (some s) prop size
        valueNull buf sizeRetNull).status = QDMI_ERROR_BADSTATE
    ∧ MOCK_QDMI_device_session_query_site_property (some s) site sprop size
        valueNull buf sizeRetNull
      = MOCK_QDMI_device_session_query_site_property
          (some { s with active := true }) site sprop size valueNull buf sizeRetNull
    ∧ MOCK_QDMI_device_session_query_operation_property (some s) opTok ns sl np
        oprop size valueNull buf sizeRetNull
      = MOCK_QDMI_device_session_query_operation_property
          (some { s with active := true }) opTok ns sl np oprop size valueNull
          buf sizeRetNull := by
  refine ⟨?_, rfl, rfl⟩
  simp [MOCK_QDMI_device_session_query_device_property, h]

/-- C4 (witness): the amended statement at a concrete inactive session. -/
theorem query_before_init_behaviour_witness :
    ({ active := false, token := [], baseurl := [] } : MockSession).active = false
    ∧ (MOCK_QDMI_device_session_query_device_property
        (some { active := false, token := [], baseurl := [] })
        QDMI_DEVICE_PROPERTY_QUBITSNUM 0 true [] false).status = QDMI_ERROR_BADSTATE
    ∧ MOCK_QDMI_device_session_query_site_property
        (some { active := false, token := [], baseurl := [] })
        0x1000 QDMI_SITE_PROPERTY_T1 0 true [] false
      = MOCK_QDMI_device_session_query_site_property
          (some { ({ active := false, token := [], baseurl := [] } : MockSession)
                    with active := true })
          0x1000 QDMI_SITE_PROPERTY_T1 0 true [] false
    ∧ MOCK_QDMI_device_session_query_operation_property
        (some { active := false, token := [], baseurl := [] })
        0x2000 0 [] 0 QDMI_OPERATION_PROPERTY_QUBITSNUM 0 true [] false
      = MOCK_QDMI_device_session_query_operation_property
          (some { ({ active := false, token := [], baseurl := [] } : MockSession)
                    with active := true })
          0x2000 0 [] 0 QDMI_OPERATION_PROPERTY_QUBITSNUM 0 true [] false :=
  ⟨rfl, query_before_init_behaviour
    { active := false, token := [], baseurl := [] } rfl
    QDMI_DEVICE_PROPERTY_QUBITSNUM QDMI_SITE_PROPERTY_T1
    QDMI_OPERATION_PROPERTY_QUBITSNUM 0 true [] false 0x1000 0x2000 0 [] 0⟩

/-! Claims about the job interface. -/

/-- C5 (counterexample): the claim states that get-results on a job whose
status is not DONE is rejected with an error.  A freshly created job is in
`QDMI_JOB_STATUS_CREATED` (≠ DONE), yet `MOCK_QDMI_device_job_get_results`
returns `QDMI_SUCCESS` and the full canned histogram data: the function
never reads the job status. -/
theorem get_results_before_done_counterexample :
    (MOCK_QDMI_device_session_create_device_job
        (some { active := true, token := [], baseurl := [] }) false)
      = (QDMI_SUCCESS,
         some { status := QDMI_JOB_STATUS_CREATED, program_format := 0,
                program := none, shots := 1024 })
    ∧ QDMI_JOB_STATUS_CREATED ≠ QDMI_JOB_STATUS_DONE
    ∧ (MOCK_QDMI_device_job_get_results
        (some { status := QDMI_JOB_STATUS_CREATED, program_format := 0,
                program := none, shots := 1024 })
        QDMI_JOB_RESULT_HISTVALUES 16 false (List.replicate 16 0) false)
      = { status := QDMI_SUCCESS, buf := histValuesBytes, sizeRet := some 16 }
    ∧ QDMI_SUCCESS ≠ QDMI_ERROR_BADSTATE
    ∧ QDMI_SUCCESS ≠ QDMI_ERROR_INVALIDARGUMENT := by
  decide

/-- C5 (amended): `MOCK_QDMI_device_job_get_results` does not inspect the
job's status at all — its result on any non-null job equals its result on
any other job, and a histogram-keys probe on a job in any status (CREATED
included) returns success. -/
theorem get_results_ignores_job_status (j j' : MockJob) (result_type : Int)
    (size : Nat) (valueNull : Bool) (buf : List Nat) (sizeRetNull : Bool) :
    MOCK_QDMI_device_job_get_results (some j) result_type size valueNull buf sizeRetNull
      = MOCK_QDMI_device_job_get_results (some j') result_type size valueNull buf sizeRetNull
    ∧ (MOCK_QDMI_device_job_get_results (some j) QDMI_JOB_RESULT_HISTKEYS 0 true
        buf true).status = QDMI_SUCCESS := by
  exact ⟨rfl, rfl⟩

/-! Claim about the device lifecycle reference count. -/

/-- The device reference count stays nonnegative under any sequence of
lifecycle calls started from a nonnegative count. -/
theorem runDeviceOps_nonneg (ops : List DeviceLifecycleOp) (rc : Int)
    (h : 0 ≤ rc) : 0 ≤ runDeviceOps ops rc := by
  induction ops generalizing rc with
  | nil => exact h
  | cons op ops ih =>
    cases op with
    | init =>
      show 0 ≤ runDeviceOps ops (MOCK_QDMI_device_initialize_impl rc).2
      refine ih _ ?_
      simp only [MOCK_QDMI_device_initialize_impl]
      omega
    | fin =>
      show 0 ≤ runDeviceOps ops (MOCK_QDMI_device_finalize rc).2
      refine ih _ ?_
      simp only [MOCK_QDMI_device_finalize]
      split <;> omega

/-- Running `n` initialize calls adds `n` to the reference count. -/
theorem runDeviceOps_replicate_init (n : Nat) (rc : Int) :
    runDeviceOps (List.replicate n DeviceLifecycleOp.init) rc = rc + n := by
  induction n generalizing rc with
  | zero => simp [runDeviceOps]
  | succ n ih =>
    rw [List.replicate_succ]
    show runDeviceOps _ (MOCK_QDMI_device_initialize_impl rc).2 = _
    rw [ih]
    simp only [MOCK_QDMI_device_initialize_impl]
    push_cast
    ring

/-- Running `n` finalize calls from a reference count of exactly `n`
returns it to zero. -/
theorem runDeviceOps_replicate_fin (n : Nat) :
    runDeviceOps (List.replicate n DeviceLifecycleOp.fin) (n : Int) = 0 := by
  induction n with
  | zero => simp [runDeviceOps]
  | succ n ih =>
    rw [List.replicate_succ]
    show runDeviceOps _ (MOCK_QDMI_device_finalize ((n : Int) + 1)).2 = 0
    have hstep : (MOCK_QDMI_device_finalize ((n : Int) + 1)).2 = (n : Int) := by
      simp only [MOCK_QDMI_device_finalize]
      split <;> omega
    rw [hstep]
    exact ih

/-- C6: starting from zero, the device reference count never goes below
zero under any sequence of initialize/finalize calls; `n` initialize calls
followed by `n` finalize calls return it to exactly zero; and a finalize
call at count zero leaves the count at zero and still returns
`QDMI_SUCCESS`; both lifecycle calls return success from any count. -/
theorem device_refcount_never_underflows (ops : List DeviceLifecycleOp) (n : Nat) :
    0 ≤ runDeviceOps ops 0
    ∧ runDeviceOps (List.replicate n DeviceLifecycleOp.fin)
        (runDeviceOps (List.replicate n DeviceLifecycleOp.init) 0) = 0
    ∧ MOCK_QDMI_device_finalize 0 = (QDMI_SUCCESS, 0)
    ∧ (MOCK_QDMI_device_initialize_impl (runDeviceOps ops 0)).1 = QDMI_SUCCESS
    ∧ (MOCK_QDMI_device_finalize (runDeviceOps ops 0)).1 = QDMI_SUCCESS := by
  refine ⟨runDeviceOps_nonneg ops 0 le_rfl, ?_, by decide, rfl, rfl⟩
  rw [runDeviceOps_replicate_init]
  simpa using runDeviceOps_replicate_fin n

/-! Claim about session parameter storage bounds. -/

/-- C7: for the TOKEN and BASEURL keys, set-parameter is bounds-checked
against the session's fixed 256-byte storage: the call succeeds, both
parameter arrays keep their 256-byte extent (no byte is written past the
end of the field), a value whose size would overflow the storage
(`size ≥ 256`) is rejected in the sense that the session is left
completely unchanged, and whenever a value is stored its NUL terminator
lands at index `size`, strictly inside the 256-byte field. -/
theorem set_parameter_bounds_checked (s : MockSession) (param : Int)
    (size : Nat) (valueNull : Bool) (value : List Nat)
    (hp : param = QDMI_DEVICE_SESSION_PARAMETER_TOKEN
          ∨ param = QDMI_DEVICE_SESSION_PARAMETER_BASEURL)
    (ht : s.token.length = 256) (hb : s.baseurl.length = 256)
    (hv : size ≤ value.length) :
    (MOCK_QDMI_device_session_set_parameter s param size valueNull value).status
      = QDMI_SUCCESS
    ∧ (MOCK_QDMI_device_session_set_parameter s param size valueNull
        value).session.token.length = 256
    ∧ (MOCK_QDMI_device_session_set_parameter s param size valueNull
        value).session.baseurl.length = 256
    ∧ (256 ≤ size →
        (MOCK_QDMI_device_session_set_parameter s param size valueNull
          value).session = s)
    ∧ (param = QDMI_DEVICE_SESSION_PARAMETER_TOKEN → valueNull = false →
        0 < size → size < 256 →
        ((MOCK_QDMI_device_session_set_parameter s param size valueNull
          value).session.token)[size]? = some 0)
    ∧ (param = QDMI_DEVICE_SESSION_PARAMETER_BASEURL → valueNull = false →
        0 < size → size < 256 →
        ((MOCK_QDMI_device_session_set_parameter s param size valueNull
          value).session.baseurl)[size]? = some 0) := by
  rcases hp with hp | hp <;> subst hp
  · by_cases hc : valueNull = false ∧ 0 < size ∧ size < 256
    · obtain ⟨h1, h2, h3⟩ := hc
      simp only [MOCK_QDMI_device_session_set_parameter, if_pos rfl,
        if_pos (⟨h1, h2, h3⟩ : valueNull = false ∧ 0 < size ∧ size < 256)]
      refine ⟨rfl, store_param_length _ _ _ ht h3 hv, hb, ?_, ?_, ?_⟩
      · intro hge; omega
      · intro _ _ _ _; exact store_param_nul _ _ _ ht h3 hv
      · intro habs; exact absurd habs (by decide)
    · simp only [MOCK_QDMI_device_session_set_parameter, if_pos rfl, if_neg hc]
      refine ⟨rfl, ht, hb, fun _ => rfl, ?_, ?_⟩
      · intro _ h1 h2 h3; exact absurd ⟨h1, h2, h3⟩ hc
      · intro habs; exact absurd habs (by decide)
  · have hne : ¬(QDMI_DEVICE_SESSION_PARAMETER_BASEURL
        = QDMI_DEVICE_SESSION_PARAMETER_TOKEN) := by decide
    by_cases hc : valueNull = false ∧ 0 < size ∧ size < 256
    · obtain ⟨h1, h2, h3⟩ := hc
      simp only [MOCK_QDMI_device_session_set_parameter, if_neg hne, if_pos rfl,
        if_pos (⟨h1, h2, h3⟩ : valueNull = false ∧ 0 < size ∧ size < 256)]
      refine ⟨rfl, ht, store_param_length _ _ _ hb h3 hv, ?_, ?_, ?_⟩
      · intro hge; omega
      · intro habs; exact absurd habs (by decide)
      · intro _ _ _ _; exact store_param_nul _ _ _ hb h3 hv
    · simp only [MOCK_QDMI_device_session_set_parameter, if_neg hne, if_pos rfl,
        if_neg hc]
      refine ⟨rfl, ht, hb, fun _ => rfl, ?_, ?_⟩
      · intro habs; exact absurd habs (by decide)
      · intro _ h1 h2 h3; exact absurd ⟨h1, h2, h3⟩ hc

set_option maxRecDepth 8000 in
/-- C7 (witness): the bounds property at a concrete freshly allocated
session storing a 3-byte token. -/
theorem set_parameter_bounds_checked_witness :
    ((QDMI_DEVICE_SESSION_PARAMETER_TOKEN = QDMI_DEVICE_SESSION_PARAMETER_TOKEN
        ∨ QDMI_DEVICE_SESSION_PARAMETER_TOKEN
            = QDMI_DEVICE_SESSION_PARAMETER_BASEURL)
      ∧ (List.replicate 256 0 : List Nat).length = 256
      ∧ (3 : Nat) ≤ ([65, 66, 67] : List Nat).length)
    ∧ (MOCK_QDMI_device_session_set_parameter
        { active := false, token := List.replicate 256 0,
          baseurl := List.replicate 256 0 }
        QDMI_DEVICE_SESSION_PARAMETER_TOKEN 3 false [65, 66, 67]).status
      = QDMI_SUCCESS
    ∧ (MOCK_QDMI_device_session_set_parameter
        { active := false, token := List.replicate 256 0,
          baseurl := List.replicate 256 0 }
        QDMI_DEVICE_SESSION_PARAMETER_TOKEN 3 false
        [65, 66, 67]).session.token.length = 256
    ∧ ((MOCK_QDMI_device_session_set_parameter
        { active := false, token := List.replicate 256 0,
          baseurl := List.replicate 256 0 }
        QDMI_DEVICE_SESSION_PARAMETER_TOKEN 3 false
        [65, 66, 67]).session.token)[3]? = some 0 :=
  ⟨⟨Or.inl rfl, by decide, by decide⟩,
   (set_parameter_bounds_checked _ _ 3 false [65, 66, 67] (Or.inl rfl)
      (by decide) (by decide) (by decide)).1,
   (set_parameter_bounds_checked _ _ 3 false [65, 66, 67] (Or.inl rfl)
      (by decide) (by decide) (by decide)).2.1,
   (set_parameter_bounds_checked _ _ 3 false [65, 66, 67] (Or.inl rfl)
      (by decide) (by decide) (by decide)).2.2.2.2.1 rfl rfl (by decide) (by decide)⟩

/-! Claim about the mock backend's advertised device data. -/

/-- C8: on any active session, the qubit-count device property succeeds
and decodes to `NUM_QUBITS = 5`; the coupling-map property succeeds and
its bytes decode to exactly the directed edge pairs of the line graph
over the five site tokens (8 directed edges); and an unsupported key such
as 999 returns `QDMI_ERROR_NOTSUPPORTED`, touching neither the buffer nor
the actual-size slot. -/
theorem device_properties_linear_topology (s : MockSession)
    (h : s.active = true) :
    (MOCK_QDMI_device_session_query_device_property (some s)
        QDMI_DEVICE_PROPERTY_QUBITSNUM 8 false (List.replicate 8 0) false).status
      = QDMI_SUCCESS
    ∧ decodeWords (MOCK_QDMI_device_session_query_device_property (some s)
        QDMI_DEVICE_PROPERTY_QUBITSNUM 8 false (List.replicate 8 0) false).buf
      = [NUM_QUBITS]
    ∧ NUM_QUBITS = 5
    ∧ (MOCK_QDMI_device_session_query_device_property (some s)
        QDMI_DEVICE_PROPERTY_COUPLINGMAP 128 false (List.replicate 128 0)
        false).status = QDMI_SUCCESS
    ∧ pairUp (decodeWords (MOCK_QDMI_device_session_query_device_property
        (some s) QDMI_DEVICE_PROPERTY_COUPLINGMAP 128 false
        (List.replicate 128 0) false).buf) = lineGraphDirectedEdges SITES
    ∧ (pairUp (decodeWords (MOCK_QDMI_device_session_query_device_property
        (some s) QDMI_DEVICE_PROPERTY_COUPLINGMAP 128 false
        (List.replicate 128 0) false).buf)).length = 8
    ∧ SITES.length = 5
    ∧ (MOCK_QDMI_device_session_query_device_property (some s) 999 0 true [] true)
      = { status := QDMI_ERROR_NOTSUPPORTED, buf := [], sizeRet := none } := by
  obtain ⟨a, t, b⟩ := s
  cases a
  · simp at h
  · exact ⟨rfl, rfl, rfl, rfl, rfl, rfl, rfl, rfl⟩

/-- C8 (witness): the device-data property at a concrete active session. -/
theorem device_properties_linear_topology_witness :
    ({ active := true, token := [], baseurl := [] } : MockSession).active = true
    ∧ decodeWords (MOCK_QDMI_device_session_query_device_property
        (some { active := true, token := [], baseurl := [] })
        QDMI_DEVICE_PROPERTY_QUBITSNUM 8 false (List.replicate 8 0) false).buf
      = [NUM_QUBITS]
    ∧ pairUp (decodeWords (MOCK_QDMI_device_session_query_device_property
        (some { active := true, token := [], baseurl := [] })
        QDMI_DEVICE_PROPERTY_COUPLINGMAP 128 false
        (List.replicate 128 0) false).buf) = lineGraphDirectedEdges SITES
    ∧ (MOCK_QDMI_device_session_query_device_property
        (some { active := true, token := [], baseurl := [] }) 999 0 true [] true)
      = { status := QDMI_ERROR_NOTSUPPORTED, buf := [], sizeRet := none } :=
  ⟨rfl,
   (device_properties_linear_topology
      { active := true, token := [], baseurl := [] } rfl).2.1,
   (device_properties_linear_topology
      { active := true, token := [], baseurl := [] } rfl).2.2.2.2.1,
   (device_properties_linear_topology
      { active := true, token := [], baseurl := [] } rfl).2.2.2.2.2.2.2⟩

/-! Claim about session init. -/

/-- C9: session init on any non-null session returns success and sets the
active flag and nothing else — the resulting session is exactly the input
with `active := true` — so the call is idempotent: applying it twice gives
the same status and state as applying it once, and an already-active
session is left unchanged apart from re-setting its flag. -/
theorem session_init_unconditional_idempotent (s : MockSession) :
    (MOCK_QDMI_device_session_init s).status = QDMI_SUCCESS
    ∧ (MOCK_QDMI_device_session_init s).session = { s with active := true }
    ∧ (MOCK_QDMI_device_session_init s).session.active = true
    ∧ (MOCK_QDMI_device_session_init s).session.token = s.token
    ∧ (MOCK_QDMI_device_session_init s).session.baseurl = s.baseurl
    ∧ MOCK_QDMI_device_session_init ((MOCK_QDMI_device_session_init s).session)
      = MOCK_QDMI_device_session_init s :=
  ⟨rfl, rfl, rfl, rfl, rfl, rfl⟩

end MockQDMI
